import Mathlib

/-!
Verification of the scoring/analysis engine of the Sports-Vision repository
(`server/services/perplexity.ts`: `categorizeEvidence`, `mapEvidenceCategoryToFactor`,
`scoreEvidenceWithAI` response parsing, `heuristicScore`, `analyzeGame`,
`analyzeAndUpdateGame`, `analyzeSlate`) against its natural-language specification.

Numbers are modelled with `ℚ`; JavaScript `Math.round` is `⌊x + 1/2⌋`, and
JavaScript truthiness of strings/numbers (empty string and `0` are falsy) is
modelled explicitly where the source relies on it (`||`, `?.`, `if (x)`).
String case folding models `String.prototype.toLowerCase` on ASCII, which covers
every string constant appearing in the engine.
-/

/-- JavaScript `Math.round`: round half toward positive infinity. -/
def jsRound (q : ℚ) : ℤ := (q + 1/2).floor

theorem jsRound_def (q : ℚ) : jsRound q = ⌊q + 1/2⌋ := by
  rw [jsRound, Rat.floor_def', Rat.floor_def]

/-- `Math.round(x*100)/100`, the 2-decimal rounding applied to the final totals. -/
def round2 (q : ℚ) : ℚ := (jsRound (q * 100) : ℚ) / 100

/-- ASCII case folding of one character (major case of `toLowerCase`). -/
def charToLower (c : Char) : Char :=
  if 'A' ≤ c ∧ c ≤ 'Z' then Char.ofNat (c.toNat + 32) else c

/-- `String.prototype.toLowerCase` restricted to ASCII case folding. -/
def strToLower (s : String) : String := ⟨s.data.map charToLower⟩

/-- Is `pre` a leading segment of `l`? (helper for substring search). -/
def listStartsWith : List Char → List Char → Bool
  | [], _ => true
  | _ :: _, [] => false
  | a :: as, b :: bs => a = b && listStartsWith as bs

/-- Does `needle` occur contiguously inside `haystack`? -/
def listHasSegment (needle : List Char) : List Char → Bool
  | [] => listStartsWith needle []
  | b :: bs => listStartsWith needle (b :: bs) || listHasSegment needle bs

/-- JavaScript `s.includes(t)`. -/
def strContains (s t : String) : Bool := listHasSegment t.data s.data

/-- JavaScript truthiness for an optional string: `null`/`undefined` and `""` are falsy. -/
def jsStr (x : Option String) : Option String :=
  match x with
  | none => none
  | some s => if s = "" then none else some s

/-- `a || d` on an optional string value (`d` returned when `a` is absent or empty). -/
def jsStrOr (x : Option String) (d : String) : String := (jsStr x).getD d

/-- `a || d` on an optional numeric value (`d` returned when `a` is absent, invalid, or `0`). -/
def jsNumOr (x : Option ℚ) (d : ℚ) : ℚ :=
  match x with
  | none => d
  | some v => if v = 0 then d else v

/-- First-seen-order deduplication, as JS `Array.from(new Set(xs))`. -/
def dedupFirst (l : List String) : List String :=
  l.foldl (fun acc s => if s ∈ acc then acc else acc ++ [s]) []

/-! ## Data model (from `shared/schema.ts` and the engine's local interfaces) -/

/-- An `Evidence` row: `category`/`source` are non-null columns, the text fields
are nullable. Fields not read by the engine are omitted. -/
structure Evidence where
  category : String
  source : String
  headline : Option String
  snippet : Option String
  fullContent : Option String
deriving Repr, DecidableEq

/-- A `Game` row, restricted to the fields the engine reads or writes.
`confidenceLow`/`confidenceHigh` are nullable `real` columns. -/
structure Game where
  id : String
  slateId : String
  homeTeam : String
  awayTeam : String
  status : String
  pick : Option String
  confidenceLow : Option ℚ
  confidenceHigh : Option ℚ
  frameworkVersion : Option ℤ
deriving Repr, DecidableEq

/-- A `Framework` row: a weight mapping (JS object, i.e. ordered keys, no
duplicate keys), a version integer and the active flag. -/
structure Framework where
  version : ℤ
  isActive : Bool
  weights : List (String × ℚ)
deriving Repr, DecidableEq

/-- The scorer's transient `FactorScore` record. -/
structure FactorScore where
  category : String
  homeScore : ℚ
  awayScore : ℚ
  reasoning : String
  keyFacts : List String
  citations : List String
deriving Repr, DecidableEq

/-- One entry of `AnalysisResult.whyFactors`. `favoredTeam` is one of
`"home"`, `"away"`, `"neutral"`. -/
structure WhyFactor where
  category : String
  weight : ℚ
  featureValue : ℚ
  contribution : ℚ
  description : String
  keyFacts : List String
  citations : List String
  favoredTeam : String
deriving Repr, DecidableEq

/-- The result of `analyzeGame`. `pickTeam` is `"home"` or `"away"`. -/
structure AnalysisResult where
  pick : String
  pickTeam : String
  confidenceLow : ℤ
  confidenceHigh : ℤ
  whyFactors : List WhyFactor
  totalHomeScore : ℚ
  totalAwayScore : ℚ
deriving Repr, DecidableEq

/-! ## Evidence categorizer -/

/-- `ev.category?.toLowerCase() || "general"` (empty category is falsy). -/
def evCategoryKey (ev : Evidence) : String :=
  let c := strToLower ev.category
  if c = "" then "general" else c

/-- Append `ev` to the group keyed `key`, creating the group at the end on first
sight — the insertion-order semantics of a JS object used as a dictionary. -/
def insertGrouped (acc : List (String × List Evidence)) (key : String) (ev : Evidence) :
    List (String × List Evidence) :=
  match acc with
  | [] => [(key, [ev])]
  | (k, items) :: rest =>
    if k = key then (k, items ++ [ev]) :: rest
    else (k, items) :: insertGrouped rest key ev

/-- `categorizeEvidence`: group evidence by lower-cased category, `"general"`
when missing/empty; groups appear in first-seen order, items in input order. -/
def categorizeEvidence (evidence : List Evidence) : List (String × List Evidence) :=
  evidence.foldl (fun acc ev => insertGrouped acc (evCategoryKey ev) ev) []

/-- `FACTOR_TO_CATEGORY`, in declaration order. -/
def FACTOR_TO_CATEGORY : List (String × List String) :=
  [("qbRating", ["qb", "quarterback"]),
   ("defense", ["defense", "defensive"]),
   ("injuries", ["injury", "injuries"]),
   ("strengthOfSchedule", ["sos", "schedule"]),
   ("homeField", ["home", "homefield"]),
   ("motivation", ["motivation", "rivalry"]),
   ("portal", ["portal", "transfer"]),
   ("coaching", ["coaching", "coach"]),
   ("weather", ["weather"]),
   ("marketMovement", ["market", "odds", "line"])]

/-- `mapEvidenceCategoryToFactor`: first factor (in table order) one of whose
keywords occurs in the lower-cased category; `none` when no keyword matches. -/
def mapEvidenceCategoryToFactor (category : String) : Option String :=
  let catLower := strToLower category
  (FACTOR_TO_CATEGORY.find? (fun p => p.2.any (fun kw => strContains catLower kw))).map Prod.fst

/-! ## Factor scorer — AI-response parsing (`scoreEvidenceWithAI`) -/

/-- One entry of the parsed AI JSON, before normalization. `none` models an
absent or non-conforming field. -/
structure RawFactor where
  category : Option String
  homeScore : Option ℚ
  awayScore : Option ℚ
  reasoning : Option String
  keyFacts : Option (List String)
  citations : Option (List String)
deriving Repr, DecidableEq

/-- The per-factor normalization in `scoreEvidenceWithAI`:
`category: f.category || "general"`, scores `Math.min(10, Math.max(0, f.homeScore || 5))`,
`reasoning: f.reasoning || ""`, `keyFacts: f.keyFacts || []`, `citations: f.citations || []`. -/
def parseFactor (f : RawFactor) : FactorScore :=
  { category := jsStrOr f.category "general"
    homeScore := min 10 (max 0 (jsNumOr f.homeScore 5))
    awayScore := min 10 (max 0 (jsNumOr f.awayScore 5))
    reasoning := jsStrOr f.reasoning ""
    keyFacts := f.keyFacts.getD []
    citations := f.citations.getD [] }

/-- `(result.factors || []).map(...)` of the AI path. -/
def parseAIFactors (factors : Option (List RawFactor)) : List FactorScore :=
  (factors.getD []).map parseFactor

/-! ## Factor scorer — heuristic fallback (`heuristicScore`) -/

def positiveWords : List String :=
  ["strong", "excellent", "advantage", "dominant", "leading", "top", "best",
   "improved", "healthy", "returning", "win"]

def negativeWords : List String :=
  ["weak", "poor", "struggling", "injury", "injured", "out", "missing", "loss",
   "concern", "problem", "questionable"]

/-- A case-insensitive alternation-of-literals regex test on already-lower-cased
content (all keywords are lower-case ASCII). -/
def matchesAny (ws : List String) (content : String) : Bool :=
  ws.any (fun w => strContains content w)

/-- `ev.fullContent || ev.snippet || ev.headline || ""`. -/
def evContent (ev : Evidence) : String :=
  (((jsStr ev.fullContent).or (jsStr ev.snippet)).or (jsStr ev.headline)).getD ""

/-- One iteration of the heuristic loop's score updates (the key-fact and
citation accumulators of the same loop are independent of the scores and are
modelled by the separate folds below). -/
def scoreStep (homeTeam awayTeam : String) (s : ℚ × ℚ) (ev : Evidence) : ℚ × ℚ :=
  let content := strToLower (evContent ev)
  let mentionsHome := strContains content (strToLower homeTeam)
  let mentionsAway := strContains content (strToLower awayTeam)
  let isPositive := matchesAny positiveWords content
  let isNegative := matchesAny negativeWords content
  let delta : ℚ := (if isPositive then 1 else 0) - (if isNegative then 1 else 0)
  if mentionsHome && !mentionsAway then (s.1 + delta, s.2)
  else if mentionsAway && !mentionsHome then (s.1, s.2 + delta)
  else s

/-- The heuristic's raw home/away scores for one category group (start at 5/5). -/
def groupScores (homeTeam awayTeam : String) (items : List Evidence) : ℚ × ℚ :=
  items.foldl (scoreStep homeTeam awayTeam) (5, 5)

/-- `if (ev.headline) keyFacts.push(ev.headline)` over a group, in order. -/
def groupKeyFacts (items : List Evidence) : List String :=
  items.filterMap (fun ev => jsStr ev.headline)

/-- `if (ev.source) citations.push(ev.source)` over a group, in order
(`source` is a non-null column, but the empty string is falsy). -/
def groupCitations (items : List Evidence) : List String :=
  items.filterMap (fun ev => jsStr (some ev.source))

/-- `Math.min(10, Math.max(0, s))`. -/
def clampScore (q : ℚ) : ℚ := min 10 (max 0 q)

/-- `heuristicScore`: per category group, tally sentiment cues, clamp to
`[0,10]`, keep the first 3 pushed headlines and the first 3 distinct sources,
and drop groups whose category maps to no factor. -/
def heuristicScore (evidence : List Evidence) (homeTeam awayTeam : String) : List FactorScore :=
  (categorizeEvidence evidence).filterMap (fun g =>
    match mapEvidenceCategoryToFactor g.1 with
    | none => none
    | some factor =>
      let s := groupScores homeTeam awayTeam g.2
      some { category := factor
             homeScore := clampScore s.1
             awayScore := clampScore s.2
             reasoning := "Based on " ++ toString g.2.length ++ " evidence items in " ++ g.1
             keyFacts := (groupKeyFacts g.2).take 3
             citations := (dedupFirst (groupCitations g.2)).take 3 })

/-! ## Weighted aggregator (`analyzeGame`, lines 633–741) -/

/-- `weights.homeField ?? 0` (nullish coalescing: only absence defaults). -/
def homeFieldWeightOf (weights : List (String × ℚ)) : ℚ :=
  (((weights.find? (fun p => p.1 = "homeField")).map Prod.snd).getD 0)

/-- The running totals and emitted why-factors of the aggregation loop. -/
structure AggState where
  totalHomeScore : ℚ
  totalAwayScore : ℚ
  totalWeight : ℚ
  whyFactors : List WhyFactor
deriving Repr, DecidableEq

/-- The home-field special case: a fixed one-sided bonus of
`(homeFieldWeight/100) * 1.5` when the home-field weight is positive. -/
def initAgg (weights : List (String × ℚ)) : AggState :=
  let homeFieldWeight := homeFieldWeightOf weights
  if homeFieldWeight > 0 then
    { totalHomeScore := homeFieldWeight / 100 * (3/2)
      totalAwayScore := 0
      totalWeight := homeFieldWeight
      whyFactors := [{ category := "homeField"
                       weight := homeFieldWeight
                       featureValue := 7
                       contribution := homeFieldWeight / 100 * (3/2)
                       description := "Home field advantage provides inherent edge"
                       keyFacts := ["Playing at home stadium", "Crowd support advantage"]
                       citations := []
                       favoredTeam := "home" }] }
  else { totalHomeScore := 0, totalAwayScore := 0, totalWeight := 0, whyFactors := [] }

/-- One iteration of the general factor loop: skip zero weights and
`homeField`; a matching `FactorScore` contributes `score/10 * weight/100` per
side, an unmatched factor only dilutes `totalWeight` and emits a neutral
why-factor. The favored-team thresholds are `±0.05`. -/
def factorStep (factorScores : List FactorScore) (st : AggState) (entry : String × ℚ) :
    AggState :=
  let factor := entry.1
  let weight := entry.2
  if weight = 0 ∨ factor = "homeField" then st
  else
    match factorScores.find? (fun f => f.category = factor) with
    | some factorScore =>
      let normalizedHome := factorScore.homeScore / 10
      let normalizedAway := factorScore.awayScore / 10
      let homeContribution := normalizedHome * (weight / 100)
      let awayContribution := normalizedAway * (weight / 100)
      let netContribution := homeContribution - awayContribution
      let favoredTeam :=
        if netContribution > 5/100 then "home"
        else if netContribution < -(5/100) then "away" else "neutral"
      { totalHomeScore := st.totalHomeScore + homeContribution
        totalAwayScore := st.totalAwayScore + awayContribution
        totalWeight := st.totalWeight + weight
        whyFactors := st.whyFactors ++
          [{ category := factor
             weight := weight
             featureValue := (factorScore.homeScore + factorScore.awayScore) / 2
             contribution := netContribution
             description := factorScore.reasoning
             keyFacts := factorScore.keyFacts
             citations := factorScore.citations
             favoredTeam := favoredTeam }] }
    | none =>
      { st with
        totalWeight := st.totalWeight + weight
        whyFactors := st.whyFactors ++
          [{ category := factor
             weight := weight
             featureValue := 5
             contribution := 0
             description := "No specific evidence available for this factor"
             keyFacts := []
             citations := []
             favoredTeam := "neutral" }] }

/-- The whole aggregation: home-field special case, then the general loop over
the weight mapping in key order. -/
def aggregate (weights : List (String × ℚ)) (factorScores : List FactorScore) : AggState :=
  weights.foldl (factorStep factorScores) (initAgg weights)

/-- The insufficient-evidence sentinel result. -/
def sentinelResult : AnalysisResult :=
  { pick := ""
    pickTeam := "home"
    confidenceLow := 0
    confidenceHigh := 0
    whyFactors := [{ category := "baseline"
                     weight := 0
                     featureValue := 5
                     contribution := 0
                     description := "Insufficient evidence to make a confident recommendation. Run research to gather more data."
                     keyFacts := []
                     citations := []
                     favoredTeam := "neutral" }]
    totalHomeScore := 0
    totalAwayScore := 0 }

/-- The pure core of `analyzeGame` (everything after the stores and the scorer
have been consulted): aggregation, the insufficient-evidence guard, pick
derivation and the confidence band. -/
def analyzeGameCore (game : Game) (weights : List (String × ℚ))
    (factorScores : List FactorScore) : AnalysisResult :=
  let st := aggregate weights factorScores
  let homeFieldWeight := homeFieldWeightOf weights
  let scoreDiff := st.totalHomeScore - st.totalAwayScore
  if ¬(factorScores.length > 0 ∨ homeFieldWeight > 0) ∨
      (factorScores.length = 0 ∧ homeFieldWeight = 0) then
    sentinelResult
  else
    let pickTeam := if scoreDiff ≥ 0 then "home" else "away"
    let pick := if pickTeam = "home" then game.homeTeam else game.awayTeam
    let maxPossibleDiff := st.totalWeight / 100
    let normalizedDiff := |scoreDiff| / max maxPossibleDiff (1/10)
    let baseConfidence := min 90 (max 50 (55 + normalizedDiff * 40))
    { pick := pick
      pickTeam := pickTeam
      confidenceLow := jsRound (max 30 (baseConfidence - 8))
      confidenceHigh := jsRound (min 95 (baseConfidence + 8))
      whyFactors := st.whyFactors
      totalHomeScore := round2 st.totalHomeScore
      totalAwayScore := round2 st.totalAwayScore }

/-! ## Storage collaborator and orchestrator -/

/-- One persisted why-factor row as inserted by `analyzeAndUpdateGame`. -/
structure WhyFactorRow where
  gameId : String
  category : String
  featureValue : ℚ
  contribution : ℚ
  description : String
  keyFacts : List String
  uncertaintyFlags : Option (List String)
  citations : List String
deriving Repr, DecidableEq

/-- Modelled from the spec: the storage collaborator of §6 (`server/storage.ts`
is not part of the analysed sources). It holds the games, the single active
framework of `getActiveFramework`, per-game evidence, and the why-factor rows.
`faultyGameIds` models game-store lookups that throw (§7 NotFound/§8 scenario C:
"game 2's Game Store lookup throws"). -/
structure Store where
  games : List Game
  activeFramework : Option Framework
  evidence : List (String × List Evidence)
  whyFactors : List WhyFactorRow
  faultyGameIds : List String
deriving Repr, DecidableEq

/-- Modelled from the spec: `getGame(gameId) -> Game | none`; a lookup on a
faulty id throws. -/
def Store.getGame (st : Store) (gameId : String) : Except String (Option Game) :=
  if st.faultyGameIds.contains gameId then Except.error "storage failure"
  else Except.ok (st.games.find? (fun g => g.id = gameId))

/-- Modelled from the spec: `getEvidence(gameId) -> list<Evidence>`. -/
def Store.getEvidence (st : Store) (gameId : String) : List Evidence :=
  (((st.evidence.find? (fun p => p.1 = gameId)).map Prod.snd).getD [])

/-- Modelled from the spec: `getGames(slateId)` returns the slate's games. -/
def Store.getGames (st : Store) (slateId : String) : List Game :=
  st.games.filter (fun g => g.slateId = slateId)

/-- The exact partial-update payload `analyzeAndUpdateGame` passes to
`updateGame`. -/
structure PickUpdate where
  pick : Option String
  confidenceLow : Option ℤ
  confidenceHigh : Option ℤ
  frameworkVersion : ℤ
  status : String
deriving Repr, DecidableEq

/-- Merging the update payload into a game row (`updateGame` semantics:
mentioned fields overwritten, others kept). -/
def applyPickUpdate (g : Game) (u : PickUpdate) : Game :=
  { g with
    pick := u.pick
    confidenceLow := u.confidenceLow.map (fun z => (z : ℚ))
    confidenceHigh := u.confidenceHigh.map (fun z => (z : ℚ))
    frameworkVersion := some u.frameworkVersion
    status := u.status }

/-- Modelled from the spec: `updateGame(gameId, partialFields) -> Game | none`. -/
def Store.updateGame (st : Store) (gameId : String) (u : PickUpdate) :
    Store × Option Game :=
  match st.games.find? (fun g => g.id = gameId) with
  | none => (st, none)
  | some g =>
    let g' := applyPickUpdate g u
    ({ st with games := st.games.map (fun x => if x.id = gameId then g' else x) }, some g')

/-- Modelled from the spec: `deleteWhyFactors(gameId)`. -/
def Store.deleteWhyFactors (st : Store) (gameId : String) : Store :=
  { st with whyFactors := st.whyFactors.filter (fun w => ¬ w.gameId = gameId) }

/-- Modelled from the spec: `createWhyFactors(rows)`. -/
def Store.createWhyFactors (st : Store) (rows : List WhyFactorRow) : Store :=
  { st with whyFactors := st.whyFactors ++ rows }

/-- A scorer oracle: what `scoreEvidenceWithAI` returns for given evidence and
team names (the AI path is nondeterministic; `heuristicScore` is one instance). -/
def Scorer : Type := List Evidence → String → String → List FactorScore

/-- `analyzeGame(gameId)`: fetch game (throws `"Game not found"` when absent),
active framework (throws `"No active framework found"` when absent), evidence;
run the scorer only when evidence exists; aggregate. -/
def analyzeGameM (scorer : Scorer) (st : Store) (gameId : String) :
    Except String AnalysisResult :=
  match st.getGame gameId with
  | Except.error e => Except.error e
  | Except.ok none => Except.error "Game not found"
  | Except.ok (some game) =>
    match st.activeFramework with
    | none => Except.error "No active framework found"
    | some framework =>
      let evidence := st.getEvidence gameId
      let factorScores :=
        if evidence.length > 0 then scorer evidence game.homeTeam game.awayTeam else []
      Except.ok (analyzeGameCore game framework.weights factorScores)

/-- The why-factor insert rows built by `analyzeAndUpdateGame`: description is
prefixed with the weight tag, neutral factors get the uncertainty flag. -/
def toWhyFactorRow (gameId : String) (wf : WhyFactor) : WhyFactorRow :=
  { gameId := gameId
    category := wf.category
    featureValue := wf.featureValue
    contribution := wf.contribution
    description := "[Weight: " ++ toString wf.weight ++ "%] " ++ wf.description
    keyFacts := wf.keyFacts
    uncertaintyFlags := if wf.favoredTeam = "neutral" then some ["Inconclusive evidence"] else none
    citations := wf.citations }

/-- `analyzeAndUpdateGame(gameId)`: analyze, then persist pick/confidence/
status/frameworkVersion (`framework?.version || 1`), delete the prior
why-factors and insert the new set. -/
def analyzeAndUpdateGame (scorer : Scorer) (st : Store) (gameId : String) :
    Except String (Store × Option Game) :=
  match analyzeGameM scorer st gameId with
  | Except.error e => Except.error e
  | Except.ok result =>
    let framework := st.activeFramework
    let hasValidPick := result.pick ≠ ""
    let fwVersion : ℤ :=
      match framework with
      | some f => if f.version = 0 then 1 else f.version
      | none => 1
    let upd : PickUpdate :=
      { pick := if hasValidPick then some result.pick else none
        confidenceLow := if hasValidPick then some result.confidenceLow else none
        confidenceHigh := if hasValidPick then some result.confidenceHigh else none
        frameworkVersion := fwVersion
        status := if hasValidPick then "ready" else "pending" }
    let updated := st.updateGame gameId upd
    let st2 := updated.1.deleteWhyFactors gameId
    let rows := result.whyFactors.map (toWhyFactorRow gameId)
    let st3 := if rows.length > 0 then st2.createWhyFactors rows else st2
    Except.ok (st3, updated.2)

/-- The sequential loop of `analyzeSlate`: collect each successfully updated
game; there is no per-game error handling in the source, so an `error`
propagates. -/
def analyzeSlateLoop (scorer : Scorer) :
    Store → List Game → List Game → Except String (Store × List Game)
  | st, [], results => Except.ok (st, results)
  | st, game :: rest, results =>
    match analyzeAndUpdateGame scorer st game.id with
    | Except.error e => Except.error e
    | Except.ok (st', updated) =>
      analyzeSlateLoop scorer st' rest
        (match updated with
         | some u => results ++ [u]
         | none => results)

/-- `analyzeSlate(slateId)`. -/
def analyzeSlate (scorer : Scorer) (st : Store) (slateId : String) :
    Except String (Store × List Game) :=
  analyzeSlateLoop scorer st (st.getGames slateId) []

/-! ## Generic facts about `jsRound` -/

theorem le_jsRound_of_le {z : ℤ} {q : ℚ} (h : (z : ℚ) ≤ q) : z ≤ jsRound q := by
  rw [jsRound_def, Int.le_floor]
  linarith

theorem jsRound_le_of_le {q : ℚ} {z : ℤ} (h : q ≤ (z : ℚ)) : jsRound q ≤ z := by
  rw [jsRound_def]
  have h1 : ⌊q + 1/2⌋ < z + 1 := by
    rw [Int.floor_lt]
    push_cast
    linarith
  omega

theorem jsRound_mono {a b : ℚ} (h : a ≤ b) : jsRound a ≤ jsRound b := by
  rw [jsRound_def, jsRound_def]
  exact Int.floor_le_floor (by linarith)

/-! ## Claims about the aggregator -/

/-- **C2** — with zero factor scores and a zero (or absent) `homeField` weight,
`analyzeGame` returns the insufficient-evidence sentinel: empty pick, `pickTeam
= "home"`, zero confidence band, zero totals, and exactly one why-factor, of
category `"baseline"` and `favoredTeam = "neutral"`. -/
theorem C2_insufficient_evidence_sentinel (game : Game) (weights : List (String × ℚ))
    (factorScores : List FactorScore)
    (hfs : factorScores = []) (hhf : homeFieldWeightOf weights = 0) :
    (analyzeGameCore game weights factorScores).pick = "" ∧
    (analyzeGameCore game weights factorScores).pickTeam = "home" ∧
    (analyzeGameCore game weights factorScores).confidenceLow = 0 ∧
    (analyzeGameCore game weights factorScores).confidenceHigh = 0 ∧
    (analyzeGameCore game weights factorScores).totalHomeScore = 0 ∧
    (analyzeGameCore game weights factorScores).totalAwayScore = 0 ∧
    (analyzeGameCore game weights factorScores).whyFactors.length = 1 ∧
    ∀ wf ∈ (analyzeGameCore game weights factorScores).whyFactors,
      wf.category = "baseline" ∧ wf.favoredTeam = "neutral" := by
  subst hfs
  have hcond : (¬((([] : List FactorScore)).length > 0 ∨ homeFieldWeightOf weights > 0) ∨
      (([] : List FactorScore)).length = 0 ∧ homeFieldWeightOf weights = 0) := by
    right
    exact ⟨rfl, hhf⟩
  unfold analyzeGameCore
  rw [if_pos hcond]
  refine ⟨rfl, rfl, rfl, rfl, rfl, rfl, rfl, ?_⟩
  intro wf hwf
  simp only [sentinelResult, List.mem_singleton] at hwf
  subst hwf
  exact ⟨rfl, rfl⟩

/-- **C5** — outside the sentinel case, the pick is derived from
`scoreDiff = totalHomeScore - totalAwayScore`: home team iff `scoreDiff ≥ 0`
(ties go to the home team), away team otherwise. -/
theorem C5_pick_derivation (game : Game) (weights : List (String × ℚ))
    (factorScores : List FactorScore)
    (h : factorScores.length > 0 ∨ homeFieldWeightOf weights > 0) :
    (0 ≤ (aggregate weights factorScores).totalHomeScore -
          (aggregate weights factorScores).totalAwayScore →
      (analyzeGameCore game weights factorScores).pickTeam = "home" ∧
      (analyzeGameCore game weights factorScores).pick = game.homeTeam) ∧
    ((aggregate weights factorScores).totalHomeScore -
          (aggregate weights factorScores).totalAwayScore < 0 →
      (analyzeGameCore game weights factorScores).pickTeam = "away" ∧
      (analyzeGameCore game weights factorScores).pick = game.awayTeam) := by
  have hcond : ¬(¬(factorScores.length > 0 ∨ homeFieldWeightOf weights > 0) ∨
      (factorScores.length = 0 ∧ homeFieldWeightOf weights = 0)) := by
    push_neg
    refine ⟨h, ?_⟩
    intro hlen
    rcases h with hl | hw
    · omega
    · intro hz
      rw [hz] at hw
      exact absurd hw (lt_irrefl 0)
  unfold analyzeGameCore
  rw [if_neg hcond]
  constructor
  · intro hd
    have hge : (aggregate weights factorScores).totalHomeScore -
        (aggregate weights factorScores).totalAwayScore ≥ 0 := hd
    rw [if_pos hge]
    exact ⟨rfl, rfl⟩
  · intro hd
    have hd' : ¬((aggregate weights factorScores).totalHomeScore -
        (aggregate weights factorScores).totalAwayScore ≥ 0) := by linarith
    rw [if_neg hd']
    exact ⟨rfl, rfl⟩

/-! ## C6 — zero-weight factors do not change the analysis -/

theorem factorStep_zero (factorScores : List FactorScore) (st : AggState) (name : String) :
    factorStep factorScores st (name, 0) = st := by
  unfold factorStep
  simp

theorem find?_key_none {α : Type} (l : List (String × α)) (k : String)
    (h : k ∉ l.map Prod.fst) : l.find? (fun p => p.1 = k) = none := by
  rw [List.find?_eq_none]
  intro p hp
  simp only [decide_eq_true_eq]
  intro hk
  exact h (List.mem_map.mpr ⟨p, hp, hk⟩)

theorem homeFieldWeightOf_insert_zero (ws₁ ws₂ : List (String × ℚ)) (name : String)
    (h : name ∉ (ws₁ ++ ws₂).map Prod.fst) :
    homeFieldWeightOf (ws₁ ++ (name, 0) :: ws₂) = homeFieldWeightOf (ws₁ ++ ws₂) := by
  unfold homeFieldWeightOf
  by_cases hn : name = "homeField"
  · subst hn
    have h1 : "homeField" ∉ ws₁.map Prod.fst := by
      intro hx
      exact h (by rw [List.map_append]; exact List.mem_append.mpr (Or.inl hx))
    have h2 : "homeField" ∉ ws₂.map Prod.fst := by
      intro hx
      exact h (by rw [List.map_append]; exact List.mem_append.mpr (Or.inr hx))
    rw [List.find?_append, List.find?_append, find?_key_none ws₁ _ h1,
      find?_key_none ws₂ _ h2, List.find?_cons_of_pos _ (by simp)]
    rfl
  · rw [List.find?_append, List.find?_append, List.find?_cons_of_neg _ (by simp [hn])]

theorem aggregate_insert_zero (ws₁ ws₂ : List (String × ℚ)) (name : String)
    (factorScores : List FactorScore) (h : name ∉ (ws₁ ++ ws₂).map Prod.fst) :
    aggregate (ws₁ ++ (name, 0) :: ws₂) factorScores = aggregate (ws₁ ++ ws₂) factorScores := by
  unfold aggregate
  have hinit : initAgg (ws₁ ++ (name, 0) :: ws₂) = initAgg (ws₁ ++ ws₂) := by
    unfold initAgg
    rw [homeFieldWeightOf_insert_zero ws₁ ws₂ name h]
  rw [hinit, List.foldl_append, List.foldl_append, List.foldl_cons,
    factorStep_zero]

/-- **C6** — inserting an extra zero-weight factor entry anywhere in the
framework's weight mapping (a key not already present) leaves the whole
analysis result — in particular `pick`, `confidenceLow`, `confidenceHigh` —
unchanged. -/
theorem C6_zero_weight_factor_no_change (game : Game) (ws₁ ws₂ : List (String × ℚ))
    (name : String) (factorScores : List FactorScore)
    (h : name ∉ (ws₁ ++ ws₂).map Prod.fst) :
    (analyzeGameCore game (ws₁ ++ (name, 0) :: ws₂) factorScores).pick =
      (analyzeGameCore game (ws₁ ++ ws₂) factorScores).pick ∧
    (analyzeGameCore game (ws₁ ++ (name, 0) :: ws₂) factorScores).confidenceLow =
      (analyzeGameCore game (ws₁ ++ ws₂) factorScores).confidenceLow ∧
    (analyzeGameCore game (ws₁ ++ (name, 0) :: ws₂) factorScores).confidenceHigh =
      (analyzeGameCore game (ws₁ ++ ws₂) factorScores).confidenceHigh := by
  have : analyzeGameCore game (ws₁ ++ (name, 0) :: ws₂) factorScores =
      analyzeGameCore game (ws₁ ++ ws₂) factorScores := by
    unfold analyzeGameCore
    rw [aggregate_insert_zero ws₁ ws₂ name factorScores h,
      homeFieldWeightOf_insert_zero ws₁ ws₂ name h]
  rw [this]
  exact ⟨rfl, rfl, rfl⟩

/-! ## C7 — factor scores are always within [0, 10] -/

/-- **C7** — every `FactorScore` produced by either scorer path (AI-response
parsing or the heuristic fallback) has `homeScore` and `awayScore` in `[0, 10]`. -/
theorem C7_factor_score_bounds (raw : Option (List RawFactor)) (evidence : List Evidence)
    (homeTeam awayTeam : String) (fs : FactorScore)
    (h : fs ∈ parseAIFactors raw ∨ fs ∈ heuristicScore evidence homeTeam awayTeam) :
    0 ≤ fs.homeScore ∧ fs.homeScore ≤ 10 ∧ 0 ≤ fs.awayScore ∧ fs.awayScore ≤ 10 := by
  have hclamp : ∀ q : ℚ, 0 ≤ min 10 (max 0 q) ∧ min 10 (max 0 q) ≤ 10 := by
    intro q
    constructor
    · exact le_min (by norm_num) (le_max_left 0 q)
    · exact min_le_left 10 _
  rcases h with hai | hheur
  · rcases List.mem_map.mp hai with ⟨f, _, hf⟩
    subst hf
    unfold parseFactor
    exact ⟨(hclamp _).1, (hclamp _).2, (hclamp _).1, (hclamp _).2⟩
  · rcases List.mem_filterMap.mp hheur with ⟨g, _, hg⟩
    rcases hmap : mapEvidenceCategoryToFactor g.1 with _ | factor
    · rw [hmap] at hg
      exact absurd hg (by simp)
    · rw [hmap] at hg
      simp only [Option.some.injEq] at hg
      subst hg
      unfold clampScore
      exact ⟨(hclamp _).1, (hclamp _).2, (hclamp _).1, (hclamp _).2⟩

/-! ## C1 — the confidence band -/

/-- The confidence band exactly as the spec's §4.3 step 7 states it (this
definition follows the spec's words, to be compared with the code):
`maxPossibleDiff = totalWeight/100`; `normalizedDiff = |scoreDiff| /
max(maxPossibleDiff, 0.1)`; `baseConfidence = clamp(55 + normalizedDiff*40,
50, 90)`; `confidenceLow = round(clamp(baseConfidence-8, 30, 100))`;
`confidenceHigh = round(clamp(baseConfidence+8, 0, 95))`. -/
def specConfidenceBand (totalHomeScore totalAwayScore totalWeight : ℚ) : ℤ × ℤ :=
  let maxPossibleDiff := totalWeight / 100
  let normalizedDiff := |totalHomeScore - totalAwayScore| / max maxPossibleDiff (1/10)
  let baseConfidence := min 90 (max 50 (55 + normalizedDiff * 40))
  (jsRound (min 100 (max 30 (baseConfidence - 8))),
   jsRound (min 95 (max 0 (baseConfidence + 8))))

/-- **C1** — whenever `analyzeGame` produces a non-empty pick, its confidence
band equals the spec's clamp chain applied to the aggregation totals, and
consequently `30 ≤ confidenceLow ≤ confidenceHigh ≤ 95`. -/
theorem C1_confidence_band (game : Game) (weights : List (String × ℚ))
    (factorScores : List FactorScore)
    (h : (analyzeGameCore game weights factorScores).pick ≠ "") :
    (analyzeGameCore game weights factorScores).confidenceLow =
      (specConfidenceBand (aggregate weights factorScores).totalHomeScore
        (aggregate weights factorScores).totalAwayScore
        (aggregate weights factorScores).totalWeight).1 ∧
    (analyzeGameCore game weights factorScores).confidenceHigh =
      (specConfidenceBand (aggregate weights factorScores).totalHomeScore
        (aggregate weights factorScores).totalAwayScore
        (aggregate weights factorScores).totalWeight).2 ∧
    30 ≤ (analyzeGameCore game weights factorScores).confidenceLow ∧
    (analyzeGameCore game weights factorScores).confidenceLow ≤
      (analyzeGameCore game weights factorScores).confidenceHigh ∧
    (analyzeGameCore game weights factorScores).confidenceHigh ≤ 95 := by
  by_cases hcond : (¬(factorScores.length > 0 ∨ homeFieldWeightOf weights > 0) ∨
      (factorScores.length = 0 ∧ homeFieldWeightOf weights = 0))
  · exfalso
    apply h
    unfold analyzeGameCore
    rw [if_pos hcond]
    rfl
  · unfold analyzeGameCore
    rw [if_neg hcond]
    set nd := |(aggregate weights factorScores).totalHomeScore -
        (aggregate weights factorScores).totalAwayScore| /
      max ((aggregate weights factorScores).totalWeight / 100) (1/10) with hnd
    set b : ℚ := min 90 (max 50 (55 + nd * 40)) with hb
    have hb1 : (50 : ℚ) ≤ b := le_min (by norm_num) (le_max_left 50 _)
    have hb2 : b ≤ 90 := min_le_left 90 _
    have hlow : max 30 (b - 8) = min 100 (max 30 (b - 8)) := by
      rw [min_eq_right]
      exact max_le (by norm_num) (by linarith)
    have hhigh : min 95 (b + 8) = min 95 (max 0 (b + 8)) := by
      rw [max_eq_right]
      linarith
    refine ⟨?_, ?_, ?_, ?_, ?_⟩
    · show jsRound (max 30 (b - 8)) = _
      rw [hlow]
      rfl
    · show jsRound (min 95 (b + 8)) = _
      rw [hhigh]
      rfl
    · show (30 : ℤ) ≤ jsRound (max 30 (b - 8))
      exact le_jsRound_of_le (by push_cast; exact le_max_left 30 _)
    · show jsRound (max 30 (b - 8)) ≤ jsRound (min 95 (b + 8))
      apply jsRound_mono
      refine le_min (max_le (by norm_num) (by linarith)) (max_le (by linarith) (by linarith))
    · show jsRound (min 95 (b + 8)) ≤ (95 : ℤ)
      exact jsRound_le_of_le (by push_cast; exact min_le_left 95 _)

/-! ## C8 — AI-response score parsing -/

/-- A well-formed AI factor entry whose `homeScore` is a present, valid `0`. -/
def rawFactorZero : RawFactor :=
  { category := some "qbRating"
    homeScore := some 0
    awayScore := some 3
    reasoning := some "away team strongly favored"
    keyFacts := some ["key fact"]
    citations := some ["source"] }

/-- **C8 counterexample** — the claim says a present, valid score of `0` is
preserved as `0`; the code computes `f.homeScore || 5`, so `0` (JS-falsy) is
replaced by the default `5`. -/
theorem C8_counterexample :
    (parseFactor rawFactorZero).homeScore = 5 ∧ ¬(parseFactor rawFactorZero).homeScore = 0 := by
  constructor
  · show min 10 (max 0 (jsNumOr (some 0) 5)) = 5
    norm_num [jsNumOr]
  · show ¬min 10 (max 0 (jsNumOr (some 0) 5)) = 0
    norm_num [jsNumOr]

/-- **C8 amended** — each returned factor's scores are parsed by clamping to
`[0,10]`; the default of `5` is applied when the value is absent, invalid, or
equal to `0` (JS falsiness of `f.homeScore || 5`), so a present score of `0` is
replaced by `5`; a present nonzero in-range score is preserved; missing
`reasoning`/`keyFacts`/`citations` default to empty. -/
theorem C8_amended_parse_normalization (f : RawFactor) :
    (∀ v : ℚ, f.homeScore = some v → v ≠ 0 →
      (parseFactor f).homeScore = min 10 (max 0 v)) ∧
    ((f.homeScore = none ∨ f.homeScore = some 0) → (parseFactor f).homeScore = 5) ∧
    (∀ v : ℚ, f.awayScore = some v → v ≠ 0 →
      (parseFactor f).awayScore = min 10 (max 0 v)) ∧
    ((f.awayScore = none ∨ f.awayScore = some 0) → (parseFactor f).awayScore = 5) ∧
    (∀ v : ℚ, f.homeScore = some v → 0 ≤ v → v ≤ 10 → v ≠ 0 →
      (parseFactor f).homeScore = v) ∧
    (f.reasoning = none → (parseFactor f).reasoning = "") ∧
    (f.keyFacts = none → (parseFactor f).keyFacts = []) ∧
    (f.citations = none → (parseFactor f).citations = []) := by
  refine ⟨?_, ?_, ?_, ?_, ?_, ?_, ?_, ?_⟩
  · intro v hv hnz
    unfold parseFactor
    rw [hv]
    simp only [jsNumOr, if_neg hnz]
  · rintro (hv | hv) <;> rw [show (parseFactor f).homeScore = min 10 (max 0 (jsNumOr f.homeScore 5)) from rfl, hv] <;> norm_num [jsNumOr]
  · intro v hv hnz
    unfold parseFactor
    rw [hv]
    simp only [jsNumOr, if_neg hnz]
  · rintro (hv | hv) <;> rw [show (parseFactor f).awayScore = min 10 (max 0 (jsNumOr f.awayScore 5)) from rfl, hv] <;> norm_num [jsNumOr]
  · intro v hv h0 h10 hnz
    unfold parseFactor
    rw [hv]
    simp only [jsNumOr, if_neg hnz]
    rw [max_eq_right h0, min_eq_right h10]
  · intro hv
    unfold parseFactor
    rw [hv]
    rfl
  · intro hv
    unfold parseFactor
    rw [hv]
    rfl
  · intro hv
    unfold parseFactor
    rw [hv]
    rfl

/-! ## C9 — heuristic keyFacts / citations -/

theorem dedupFirst_nodup_aux (l acc : List String) (h : acc.Nodup) :
    (l.foldl (fun acc s => if s ∈ acc then acc else acc ++ [s]) acc).Nodup := by
  induction l generalizing acc with
  | nil => exact h
  | cons s rest ih =>
    rw [List.foldl_cons]
    apply ih
    by_cases hs : s ∈ acc
    · rw [if_pos hs]
      exact h
    · rw [if_neg hs]
      rw [List.nodup_append]
      exact ⟨h, List.nodup_singleton s, by
        intro a ha hs'
        simp only [List.mem_singleton] at hs'
        subst hs'
        exact hs ha⟩

theorem dedupFirst_nodup (l : List String) : (dedupFirst l).Nodup :=
  dedupFirst_nodup_aux l [] List.nodup_nil

/-- Evidence for the C9 counterexample: two items in the same category group
with the same headline. -/
def cexEv1 : Evidence :=
  { category := "qb", source := "ESPN", headline := some "Star QB out"
    snippet := none, fullContent := none }

def cexEv2 : Evidence :=
  { category := "qb", source := "CBS", headline := some "Star QB out"
    snippet := none, fullContent := none }

/-- **C9 counterexample** — the claim says `keyFacts` carries up to 3
*distinct* headlines with no duplicates; the code pushes every truthy headline
without deduplication (only `citations` goes through a `Set`), so two items
with the same headline yield a duplicated `keyFacts` list. -/
theorem C9_counterexample :
    ((heuristicScore [cexEv1, cexEv2] "Alpha" "Beta").map FactorScore.keyFacts) =
      [["Star QB out", "Star QB out"]] ∧
    ¬(["Star QB out", "Star QB out"] : List String).Nodup := by
  constructor
  · decide
  · decide

/-- **C9 amended** — for each category group the heuristic scorer emits,
`keyFacts` is the first up-to-3 truthy headlines of the group's items in order
(duplicates retained), while `citations` is the first up-to-3 *distinct* truthy
sources in first-seen order (no duplicates). -/
theorem C9_amended_key_facts_citations (evidence : List Evidence)
    (homeTeam awayTeam : String) (fs : FactorScore)
    (h : fs ∈ heuristicScore evidence homeTeam awayTeam) :
    ∃ g ∈ categorizeEvidence evidence,
      fs.keyFacts = (groupKeyFacts g.2).take 3 ∧
      fs.citations = (dedupFirst (groupCitations g.2)).take 3 ∧
      fs.citations.Nodup ∧
      fs.keyFacts.length ≤ 3 ∧
      fs.citations.length ≤ 3 := by
  rcases List.mem_filterMap.mp h with ⟨g, hg, hsome⟩
  refine ⟨g, hg, ?_⟩
  rcases hmap : mapEvidenceCategoryToFactor g.1 with _ | factor
  · rw [hmap] at hsome
    exact absurd hsome (by simp)
  · rw [hmap] at hsome
    simp only [Option.some.injEq] at hsome
    subst hsome
    refine ⟨rfl, rfl, ?_, ?_, ?_⟩
    · exact ((dedupFirst (groupCitations g.2)).take_sublist 3).nodup
        (dedupFirst_nodup (groupCitations g.2))
    · exact List.length_take_le 3 _
    · exact List.length_take_le 3 _

/-! ## Orchestrator lemmas -/

/-- A successful `analyzeGame` pins down the store reads it made. -/
theorem analyzeGameM_ok_inv (scorer : Scorer) (st : Store) (gameId : String)
    (result : AnalysisResult)
    (hres : analyzeGameM scorer st gameId = Except.ok result) :
    ∃ game fw,
      st.games.find? (fun g => g.id = gameId) = some game ∧
      st.faultyGameIds.contains gameId = false ∧
      st.activeFramework = some fw := by
  unfold analyzeGameM at hres
  cases hget : st.getGame gameId with
  | error e =>
    rw [hget] at hres
    exact absurd hres (by simp)
  | ok opt =>
    rw [hget] at hres
    cases opt with
    | none => exact absurd hres (by simp)
    | some game =>
      cases hfw : st.activeFramework with
      | none =>
        rw [hfw] at hres
        exact absurd hres (by simp)
      | some fw =>
        unfold Store.getGame at hget
        by_cases hfault : st.faultyGameIds.contains gameId
        · rw [if_pos hfault] at hget
          exact absurd hget (by simp)
        · rw [if_neg hfault] at hget
          simp only [Except.ok.injEq] at hget
          exact ⟨game, fw, hget, by simpa using hfault, rfl⟩

/-- A successful `analyzeGame` makes `analyzeAndUpdateGame` succeed and return
the found game with exactly the pick-update payload applied. -/
theorem analyzeAndUpdateGame_ok (scorer : Scorer) (st : Store) (gameId : String)
    (result : AnalysisResult)
    (hres : analyzeGameM scorer st gameId = Except.ok result) :
    ∃ game st',
      st.games.find? (fun g => g.id = gameId) = some game ∧
      analyzeAndUpdateGame scorer st gameId = Except.ok (st', some (applyPickUpdate game
        { pick := if result.pick ≠ "" then some result.pick else none
          confidenceLow := if result.pick ≠ "" then some result.confidenceLow else none
          confidenceHigh := if result.pick ≠ "" then some result.confidenceHigh else none
          frameworkVersion :=
            match st.activeFramework with
            | some f => if f.version = 0 then 1 else f.version
            | none => 1
          status := if result.pick ≠ "" then "ready" else "pending" })) := by
  rcases analyzeGameM_ok_inv scorer st gameId result hres with ⟨game, fw, hfind, _, _⟩
  exact ⟨game, _, hfind, by
    unfold analyzeAndUpdateGame
    rw [hres]
    simp only [Store.updateGame, hfind]
    rfl⟩

/-- **C3** — `analyzeAndUpdateGame` persists a non-empty pick with its
confidence band, the active framework's version and status `"ready"`; the
insufficient-evidence sentinel (empty pick) is persisted as `pick = null`,
null confidence fields and status `"pending"`, and no exception is thrown for
the inconclusive case (the call still returns successfully). -/
theorem C3_persist_analysis (scorer : Scorer) (st : Store) (gameId : String)
    (fw : Framework) (result : AnalysisResult)
    (hfw : st.activeFramework = some fw) (hv : fw.version ≠ 0)
    (hres : analyzeGameM scorer st gameId = Except.ok result) :
    ∃ st' g', analyzeAndUpdateGame scorer st gameId = Except.ok (st', some g') ∧
      (result.pick ≠ "" →
        g'.pick = some result.pick ∧
        g'.confidenceLow = some (result.confidenceLow : ℚ) ∧
        g'.confidenceHigh = some (result.confidenceHigh : ℚ) ∧
        g'.frameworkVersion = some fw.version ∧
        g'.status = "ready") ∧
      (result.pick = "" →
        g'.pick = none ∧
        g'.confidenceLow = none ∧
        g'.confidenceHigh = none ∧
        g'.status = "pending") := by
  rcases analyzeAndUpdateGame_ok scorer st gameId result hres with ⟨game, st', hfind, hok⟩
  refine ⟨st', _, hok, ?_, ?_⟩
  · intro hp
    simp [applyPickUpdate, hfw, hp, hv]
  · intro hp
    simp [applyPickUpdate, hp]

/-- **C10** — every `analyzeAndUpdateGame` run that reaches the game update
overwrites `frameworkVersion` with the active framework's version
(`framework?.version || 1`), regardless of whether the pick was conclusive;
the stored value does not depend on the game's previous `frameworkVersion`. -/
theorem C10_framework_version_always_written (scorer : Scorer) (st : Store)
    (gameId : String) (fw : Framework) (result : AnalysisResult)
    (hfw : st.activeFramework = some fw)
    (hres : analyzeGameM scorer st gameId = Except.ok result) :
    ∃ st' g', analyzeAndUpdateGame scorer st gameId = Except.ok (st', some g') ∧
      g'.frameworkVersion = some (if fw.version = 0 then 1 else fw.version) := by
  rcases analyzeAndUpdateGame_ok scorer st gameId result hres with ⟨game, st', hfind, hok⟩
  refine ⟨st', _, hok, ?_⟩
  unfold applyPickUpdate
  rw [hfw]

/-! ## C4 — `analyzeSlate` error behavior -/

def cexFramework : Framework :=
  { version := 1, isActive := true, weights := [("homeField", 10)] }

def cexGame1 : Game :=
  { id := "g1", slateId := "s", homeTeam := "Alpha", awayTeam := "Beta"
    status := "pending", pick := none, confidenceLow := none, confidenceHigh := none
    frameworkVersion := none }

def cexGame2 : Game :=
  { id := "g2", slateId := "s", homeTeam := "Gamma", awayTeam := "Delta"
    status := "pending", pick := none, confidenceLow := none, confidenceHigh := none
    frameworkVersion := none }

def cexGame3 : Game :=
  { id := "g3", slateId := "s", homeTeam := "Epsilon", awayTeam := "Zeta"
    status := "pending", pick := none, confidenceLow := none, confidenceHigh := none
    frameworkVersion := none }

/-- A 3-game slate whose second game's Game Store lookup throws. -/
def cexStore : Store :=
  { games := [cexGame1, cexGame2, cexGame3]
    activeFramework := some cexFramework
    evidence := []
    whyFactors := []
    faultyGameIds := ["g2"] }

theorem find?_isSome_map_id (l : List Game) (gameId : String) (g' : Game)
    (hg' : g'.id = gameId) (id : String) :
    ((l.map (fun x => if x.id = gameId then g' else x)).find? (fun g => g.id = id)).isSome =
      (l.find? (fun g => g.id = id)).isSome := by
  induction l with
  | nil => rfl
  | cons a rest ih =>
    rw [List.map_cons]
    by_cases ha : a.id = gameId
    · rw [if_pos ha]
      by_cases hid : a.id = id
      · have hgid : g'.id = id := by
          rw [hg', ← ha]
          exact hid
        rw [List.find?_cons_of_pos _ (by simp [hgid]),
          List.find?_cons_of_pos _ (by simp [hid])]
        rfl
      · have hgid : ¬(g'.id = id) := by
          rw [hg', ← ha]
          exact hid
        rw [List.find?_cons_of_neg _ (by simp [hgid]),
          List.find?_cons_of_neg _ (by simp [hid])]
        exact ih
    · rw [if_neg ha]
      by_cases hid : a.id = id
      · rw [List.find?_cons_of_pos _ (by simp [hid]),
          List.find?_cons_of_pos _ (by simp [hid])]
      · rw [List.find?_cons_of_neg _ (by simp [hid]),
          List.find?_cons_of_neg _ (by simp [hid])]
        exact ih

theorem updateGame_preserves (st : Store) (gameId : String) (u : PickUpdate) :
    (st.updateGame gameId u).1.activeFramework = st.activeFramework ∧
    (st.updateGame gameId u).1.faultyGameIds = st.faultyGameIds ∧
    (st.updateGame gameId u).1.evidence = st.evidence ∧
    ∀ id, (((st.updateGame gameId u).1.games.find? (fun g => g.id = id)).isSome) =
      ((st.games.find? (fun g => g.id = id)).isSome) := by
  unfold Store.updateGame
  cases hfind : st.games.find? (fun g => g.id = gameId) with
  | none => exact ⟨rfl, rfl, rfl, fun id => rfl⟩
  | some g =>
    refine ⟨rfl, rfl, rfl, fun id => ?_⟩
    have hid : g.id = gameId := by
      have := List.find?_some hfind
      simpa using this
    exact find?_isSome_map_id st.games gameId _ (by simp [applyPickUpdate, hid]) id

/-- A successful `analyzeAndUpdateGame` only rewrites game rows in place and
replaces why-factor rows: the framework, the fault set, the evidence and the
set of findable game ids are unchanged. -/
theorem analyzeAndUpdateGame_preserves (scorer : Scorer) (st : Store) (gameId : String)
    (st' : Store) (g? : Option Game)
    (h : analyzeAndUpdateGame scorer st gameId = Except.ok (st', g?)) :
    st'.activeFramework = st.activeFramework ∧
    st'.faultyGameIds = st.faultyGameIds ∧
    st'.evidence = st.evidence ∧
    ∀ id, ((st'.games.find? (fun g => g.id = id)).isSome) =
      ((st.games.find? (fun g => g.id = id)).isSome) := by
  unfold analyzeAndUpdateGame at h
  cases hres : analyzeGameM scorer st gameId with
  | error e =>
    rw [hres] at h
    exact absurd h (by simp)
  | ok result =>
    rw [hres] at h
    simp only [Except.ok.injEq, Prod.mk.injEq] at h
    rcases h with ⟨hst, _⟩
    rcases updateGame_preserves st gameId
      { pick := if result.pick ≠ "" then some result.pick else none
        confidenceLow := if result.pick ≠ "" then some result.confidenceLow else none
        confidenceHigh := if result.pick ≠ "" then some result.confidenceHigh else none
        frameworkVersion :=
          match st.activeFramework with
          | some f => if f.version = 0 then 1 else f.version
          | none => 1
        status := if result.pick ≠ "" then "ready" else "pending" } with ⟨h1, h2, h3, h4⟩
    rw [← hst]
    by_cases hlen : (result.whyFactors.map (toWhyFactorRow gameId)).length > 0
    · rw [if_pos hlen]
      exact ⟨h1, h2, h3, h4⟩
    · rw [if_neg hlen]
      exact ⟨h1, h2, h3, h4⟩

/-- A faulty game-store lookup makes the whole per-game analysis throw. -/
theorem analyzeAndUpdateGame_faulty (scorer : Scorer) (st : Store) (gameId : String)
    (h : st.faultyGameIds.contains gameId = true) :
    analyzeAndUpdateGame scorer st gameId = Except.error "storage failure" := by
  unfold analyzeAndUpdateGame analyzeGameM Store.getGame
  rw [if_pos h]

/-- **C4 counterexample** — the claim (and spec §8 scenario C) says that when
game 2's Game Store lookup throws, `analyzeSlate` still returns the two
successfully analyzed games and no exception propagates; the source loop has
no per-game error handling, so the error escapes `analyzeSlate` and no list is
returned at all. -/
theorem C4_counterexample :
    analyzeSlate (fun _ _ _ => []) cexStore "s" = Except.error "storage failure" := by
  have hres1 : analyzeGameM (fun _ _ _ => []) cexStore "g1" =
      Except.ok (analyzeGameCore cexGame1 cexFramework.weights []) := by rfl
  rcases analyzeAndUpdateGame_ok _ cexStore "g1" _ hres1 with ⟨game1, st1, hfind1, hok1⟩
  rcases analyzeAndUpdateGame_preserves _ cexStore "g1" st1 _ hok1 with ⟨_, hfault1, _, _⟩
  have hgames : cexStore.getGames "s" = [cexGame1, cexGame2, cexGame3] := by rfl
  unfold analyzeSlate
  rw [hgames]
  simp only [analyzeSlateLoop]
  rw [show cexGame1.id = "g1" from rfl, hok1]
  simp only [analyzeSlateLoop]
  rw [show cexGame2.id = "g2" from rfl,
    analyzeAndUpdateGame_faulty _ st1 "g2" (by rw [hfault1]; rfl)]

theorem analyzeSlateLoop_ok (scorer : Scorer) (games : List Game) :
    ∀ (st : Store) (acc : List Game),
      st.activeFramework.isSome →
      st.faultyGameIds = [] →
      (∀ g ∈ games, ((st.games.find? (fun x => x.id = g.id)).isSome) = true) →
      ∃ st' results, analyzeSlateLoop scorer st games acc = Except.ok (st', results) ∧
        results.length = acc.length + games.length := by
  induction games with
  | nil =>
    intro st acc _ _ _
    exact ⟨st, acc, rfl, by simp⟩
  | cons g rest ih =>
    intro st acc h1 h2 h3
    have hfind : ∃ game, st.games.find? (fun x => x.id = g.id) = some game := by
      have hg := h3 g (List.mem_cons_self g rest)
      cases hf : st.games.find? (fun x => x.id = g.id) with
      | none =>
        rw [hf] at hg
        exact absurd hg (by simp)
      | some game => exact ⟨game, rfl⟩
    rcases hfind with ⟨game, hfind⟩
    rcases Option.isSome_iff_exists.mp h1 with ⟨fw, hfw⟩
    have hres : ∃ r, analyzeGameM scorer st g.id = Except.ok r := by
      unfold analyzeGameM Store.getGame
      rw [h2, if_neg (by simp), hfind, hfw]
      exact ⟨_, rfl⟩
    rcases hres with ⟨r, hres⟩
    rcases analyzeAndUpdateGame_ok scorer st g.id r hres with ⟨game', st1, hfind', hok⟩
    rcases analyzeAndUpdateGame_preserves scorer st g.id st1 _ hok with ⟨p1, p2, p3, p4⟩
    have h1' : st1.activeFramework.isSome := by
      rw [p1]
      exact h1
    have h2' : st1.faultyGameIds = [] := by
      rw [p2]
      exact h2
    have h3' : ∀ x ∈ rest, ((st1.games.find? (fun y => y.id = x.id)).isSome) = true := by
      intro x hx
      rw [p4]
      exact h3 x (List.mem_cons_of_mem g hx)
    rcases ih st1 (acc ++ [applyPickUpdate game'
      { pick := if r.pick ≠ "" then some r.pick else none
        confidenceLow := if r.pick ≠ "" then some r.confidenceLow else none
        confidenceHigh := if r.pick ≠ "" then some r.confidenceHigh else none
        frameworkVersion :=
          match st.activeFramework with
          | some f => if f.version = 0 then 1 else f.version
          | none => 1
        status := if r.pick ≠ "" then "ready" else "pending" }]) h1' h2' h3'
      with ⟨st2, results, hloop, hlen⟩
    refine ⟨st2, results, ?_, ?_⟩
    · simp only [analyzeSlateLoop]
      rw [hok]
      exact hloop
    · rw [hlen, List.length_append]
      simp only [List.length_cons, List.length_nil]
      omega

/-- **C4 amended** — `analyzeSlate` has no per-game error isolation: an
individual game's thrown error propagates out of `analyzeSlate` (see the
counterexample). When no game's analysis throws (no faulty lookups, an active
framework present), the loop returns successfully with exactly one updated
game per slate game. -/
theorem C4_amended_slate (scorer : Scorer) (st : Store) (slateId : String)
    (fw : Framework) (hfw : st.activeFramework = some fw)
    (hnofault : st.faultyGameIds = []) :
    ∃ st' results, analyzeSlate scorer st slateId = Except.ok (st', results) ∧
      results.length = (st.getGames slateId).length := by
  have h3 : ∀ g ∈ st.getGames slateId,
      ((st.games.find? (fun x => x.id = g.id)).isSome) = true := by
    intro g hg
    have hmem : g ∈ st.games := (List.mem_filter.mp hg).1
    rw [List.find?_isSome]
    exact ⟨g, hmem, by simp⟩
  rcases analyzeSlateLoop_ok scorer (st.getGames slateId) st []
    (by rw [hfw]; rfl) hnofault h3 with ⟨st', results, hloop, hlen⟩
  refine ⟨st', results, hloop, ?_⟩
  rw [hlen]
  simp

/-! ## Concrete witnesses -/

def wGame : Game :=
  { id := "w", slateId := "ws", homeTeam := "Home Team", awayTeam := "Away Team"
    status := "pending", pick := none, confidenceLow := none, confidenceHigh := none
    frameworkVersion := none }

def wFramework : Framework :=
  { version := 2, isActive := true, weights := [("homeField", 100)] }

def wStore : Store :=
  { games := [wGame]
    activeFramework := some wFramework
    evidence := []
    whyFactors := []
    faultyGameIds := [] }

theorem C1_confidence_band_witness :
    (analyzeGameCore wGame [("homeField", 100)] []).pick ≠ "" ∧
    30 ≤ (analyzeGameCore wGame [("homeField", 100)] []).confidenceLow ∧
    (analyzeGameCore wGame [("homeField", 100)] []).confidenceHigh ≤ 95 := by
  have hpick : (analyzeGameCore wGame [("homeField", 100)] []).pick ≠ "" := by
    norm_num [analyzeGameCore, aggregate, initAgg, homeFieldWeightOf, factorStep,
      List.find?, wGame]
    decide
  exact ⟨hpick, (C1_confidence_band wGame [("homeField", 100)] [] hpick).2.2.1,
    (C1_confidence_band wGame [("homeField", 100)] [] hpick).2.2.2.2⟩

theorem C2_insufficient_evidence_sentinel_witness :
    homeFieldWeightOf [("qbRating", 50)] = 0 ∧
    (analyzeGameCore wGame [("qbRating", 50)] []).pick = "" ∧
    (analyzeGameCore wGame [("qbRating", 50)] []).whyFactors.length = 1 := by
  have hhf : homeFieldWeightOf [("qbRating", 50)] = 0 := by rfl
  have h := C2_insufficient_evidence_sentinel wGame [("qbRating", 50)] [] rfl hhf
  exact ⟨hhf, h.1, h.2.2.2.2.2.2.1⟩

theorem C3_persist_analysis_witness :
    wStore.activeFramework = some wFramework ∧ wFramework.version ≠ 0 ∧
    ∃ st' g', analyzeAndUpdateGame (fun _ _ _ => []) wStore "w" = Except.ok (st', some g') := by
  have h1 : wStore.activeFramework = some wFramework := rfl
  have h2 : wFramework.version ≠ 0 := by decide
  rcases C3_persist_analysis (fun _ _ _ => []) wStore "w" wFramework _ h1 h2 rfl
    with ⟨st', g', hok, _⟩
  exact ⟨h1, h2, st', g', hok⟩

theorem C4_amended_slate_witness :
    wStore.faultyGameIds = [] ∧
    ∃ st' results, analyzeSlate (fun _ _ _ => []) wStore "ws" = Except.ok (st', results) ∧
      results.length = 1 := by
  rcases C4_amended_slate (fun _ _ _ => []) wStore "ws" wFramework rfl rfl
    with ⟨st', results, hok, hlen⟩
  refine ⟨rfl, st', results, hok, ?_⟩
  rw [hlen]
  rfl

theorem C5_pick_derivation_witness :
    (([] : List FactorScore).length > 0 ∨ homeFieldWeightOf [("homeField", 100)] > 0) ∧
    (analyzeGameCore wGame [("homeField", 100)] []).pickTeam = "home" := by
  have h : (([] : List FactorScore).length > 0 ∨ homeFieldWeightOf [("homeField", 100)] > 0) := by
    right
    norm_num [homeFieldWeightOf, List.find?]
  have hd : 0 ≤ (aggregate [("homeField", 100)] []).totalHomeScore -
      (aggregate [("homeField", 100)] []).totalAwayScore := by
    norm_num [aggregate, initAgg, homeFieldWeightOf, factorStep, List.find?]
  exact ⟨h, ((C5_pick_derivation wGame [("homeField", 100)] [] h).1 hd).1⟩

theorem C6_zero_weight_factor_no_change_witness :
    ("extra" ∉ (([("homeField", (100 : ℚ))] ++ []).map Prod.fst)) ∧
    (analyzeGameCore wGame ([("homeField", 100)] ++ ("extra", 0) :: []) []).pick =
      (analyzeGameCore wGame ([("homeField", 100)] ++ []) []).pick := by
  have h : "extra" ∉ (([("homeField", (100 : ℚ))] ++ []).map Prod.fst) := by decide
  exact ⟨h, (C6_zero_weight_factor_no_change wGame [("homeField", 100)] [] "extra" [] h).1⟩

def wRaw : RawFactor :=
  { category := some "defense", homeScore := some 12, awayScore := some 3
    reasoning := none, keyFacts := none, citations := none }

theorem C7_factor_score_bounds_witness :
    (parseFactor wRaw ∈ parseAIFactors (some [wRaw]) ∨
      parseFactor wRaw ∈ heuristicScore [] "h" "a") ∧
    0 ≤ (parseFactor wRaw).homeScore ∧ (parseFactor wRaw).homeScore ≤ 10 := by
  have h : parseFactor wRaw ∈ parseAIFactors (some [wRaw]) ∨
      parseFactor wRaw ∈ heuristicScore [] "h" "a" := by
    left
    simp [parseAIFactors]
  have hb := C7_factor_score_bounds (some [wRaw]) [] "h" "a" (parseFactor wRaw) h
  exact ⟨h, hb.1, hb.2.1⟩

def wRaw8 : RawFactor :=
  { category := some "qbRating", homeScore := some 7, awayScore := none
    reasoning := none, keyFacts := none, citations := none }

theorem C8_amended_parse_normalization_witness :
    wRaw8.homeScore = some 7 ∧ (7 : ℚ) ≠ 0 ∧
    (parseFactor wRaw8).homeScore = min 10 (max 0 7) ∧
    (parseFactor wRaw8).awayScore = 5 := by
  have h := C8_amended_parse_normalization wRaw8
  exact ⟨rfl, by norm_num, h.1 7 rfl (by norm_num), h.2.2.2.1 (Or.inl rfl)⟩

def wEv : Evidence :=
  { category := "qb", source := "ESPN", headline := some "QB returns"
    snippet := none, fullContent := none }

def wFs9 : FactorScore :=
  { category := "qbRating", homeScore := 5, awayScore := 5
    reasoning := "Based on 1 evidence items in qb"
    keyFacts := ["QB returns"], citations := ["ESPN"] }

theorem C9_amended_key_facts_citations_witness :
    wFs9 ∈ heuristicScore [wEv] "h" "a" ∧
    wFs9.citations.Nodup ∧ wFs9.keyFacts.length ≤ 3 := by
  have hmem : wFs9 ∈ heuristicScore [wEv] "h" "a" := by decide
  rcases C9_amended_key_facts_citations [wEv] "h" "a" wFs9 hmem
    with ⟨g, _, _, _, hnd, hk, _⟩
  exact ⟨hmem, hnd, hk⟩

theorem C10_framework_version_always_written_witness :
    ∃ st' g', analyzeAndUpdateGame (fun _ _ _ => []) wStore "w" = Except.ok (st', some g') ∧
      g'.frameworkVersion = some 2 := by
  rcases C10_framework_version_always_written (fun _ _ _ => []) wStore "w" wFramework _ rfl rfl
    with ⟨st', g', hok, hv⟩
  refine ⟨st', g', hok, ?_⟩
  rw [hv]
  rfl
